import Mathlib

/-!
Shallow embedding of `agenta_backend/routers/evaluation_router.py`.

Each HTTP handler of the router is modelled as a Lean function from an
environment (the results of its external collaborator calls: database
fetches, the authorization predicate `check_action_access`, service-layer
calls, the task queue) and the request payload to a pair
`(Resp, List Event)`: the HTTP response together with the trace of
completed external side effects, in order.  An `Event` is appended to the
trace only after the corresponding external call has returned successfully,
so the trace records exactly the side effects that persist.

Python exceptions are modelled by `Exc` (a flag for `KeyError`, an optional
`status_code` attribute for `hasattr(e, "status_code")`, and the `str(e)`
message).  Fallible external calls return `Except Exc α`.  Each handler body
runs inside the monad `M` (state = event trace, exceptions = `Exc`), and the
handler itself wraps the body in the `try/except` boundary of the source,
translated by the `runM`/boundary functions below.
-/

namespace EvaluationRouter

/-- Model of a Python exception as observed by the router: whether it is a
`KeyError`, whether it has a `status_code` attribute (and its value), and
its `str(e)` message. -/
structure Exc where
  isKeyError : Bool
  status_code : Option Nat
  msg : String
deriving DecidableEq

/-- `random.choice` on an empty sequence raises `IndexError`. -/
def indexError : Exc :=
  { isKeyError := false, status_code := none,
    msg := "Cannot choose from an empty sequence" }

/-- Attribute access on `None` raises `AttributeError`. -/
def attributeError (attr : String) : Exc :=
  { isKeyError := false, status_code := none,
    msg := "NoneType object has no attribute " ++ attr }

/-- `fastapi.HTTPException(status_code, detail)` raised inside a handler
body: it carries a `status_code` attribute. -/
def httpExc (code : Nat) (detail : String) : Exc :=
  { isKeyError := false, status_code := some code,
    msg := toString code ++ ": " ++ detail }

/-- A persisted evaluation record as returned by the database layer. -/
structure EvalRecord where
  id : String
  status : String
  aggregated_results : String
deriving DecidableEq

/-- An app record as returned by `db_manager.fetch_app_by_id`. -/
structure App where
  id : String
deriving DecidableEq

/-- The body of a successful HTTP response, one constructor per handler
result shape. -/
inductive Body where
  | idList (ids : List String)
  | evalList (evals : List EvalRecord)
  | statusObj (st : String)
  | resultsObj (results : String) (evaluation_id : String)
  | scenarioList (scenarios : List String)
  | comparison (c : String)
  | evaluationObj (e : EvalRecord)
  | external (tag : String)
deriving DecidableEq

/-- An HTTP response produced by a handler: a 200 with a body, the bare
`Response(status_code=204)`, a `JSONResponse({"detail": d}, status)` as used
for permission denials, or a raised `HTTPException(status, detail)`. -/
inductive Resp where
  | ok (body : Body)
  | noContent
  | jsonDetail (code : Nat) (detail : String)
  | httpError (code : Nat) (detail : String)
deriving DecidableEq

/-- The HTTP status code of a response. -/
def Resp.statusCode : Resp → Nat
  | .ok _ => 200
  | .noContent => 204
  | .jsonDetail c _ => c
  | .httpError c _ => c

/-- Completed external side effects, recorded in order. -/
inductive Event where
  | checkAccess (objectId : Option String)
  | createEval (variant_id : String)
  | enqueueJob (variant_id : String) (evaluation_id : String)
  | deleteEvals (ids : List String)
  | updateLastModified (object_id : String)
  | compareScenarios (ids : List String)
deriving DecidableEq

/-- Is this event a `check_action_access` call? -/
def Event.isCheckAccess : Event → Bool
  | .checkAccess _ => true
  | _ => false

/-- Is this event a `create_new_evaluation` call that completed? -/
def Event.isCreateEval : Event → Bool
  | .createEval _ => true
  | _ => false

/-- Is this event an `evaluate.delay` enqueue that completed? -/
def Event.isEnqueueJob : Event → Bool
  | .enqueueJob _ _ => true
  | _ => false

/-- Is this event a `delete_evaluations` service call? -/
def Event.isDeleteEvals : Event → Bool
  | .deleteEvals _ => true
  | _ => false

/-- Handler-body monad: threads the trace of completed side effects and
propagates Python exceptions, keeping the trace accumulated so far. -/
def M (α : Type) : Type := List Event → Except Exc α × List Event

/-- Return a pure value, no side effect. -/
def M.pure (a : α) : M α := fun evts => (.ok a, evts)

/-- Sequence two steps; an exception skips the continuation but keeps the
trace of effects already performed. -/
def M.bind (x : M α) (f : α → M β) : M β := fun evts =>
  match x evts with
  | (.ok a, evts1) => f a evts1
  | (.error e, evts1) => (.error e, evts1)

instance : Monad M where
  pure := M.pure
  bind := M.bind

/-- Raise a Python exception. -/
def M.throw (e : Exc) : M α := fun evts => (.error e, evts)

/-- Record a completed external side effect. -/
def emit (ev : Event) : M Unit := fun evts => (.ok (), evts ++ [ev])

/-- Perform an external call whose outcome is given by the environment. -/
def call (r : Except Exc α) : M α := fun evts => (r, evts)

/-- Fixed detail message of every permission denial in the router. -/
def permissionDeniedDetail : String :=
  "You do not have permission to perform this action. Please contact your organization admin."

/-- `except Exception as exc: raise HTTPException(status_code=500, detail=str(exc))`. -/
def boundary500 (e : Exc) : Resp := .httpError 500 e.msg

/-- `status_code = exc.status_code if hasattr(exc, "status_code") else 500`
followed by `raise HTTPException(status_code=status_code, detail=str(exc))`. -/
def boundaryStatusCode (e : Exc) : Resp :=
  .httpError (e.status_code.getD 500) e.msg

/-- The `try/except` boundary of `create_evaluation`: `except KeyError`
first, then the `hasattr(e, "status_code")` pattern. -/
def createBoundary (e : Exc) : Resp :=
  if e.isKeyError then
    .httpError 400
      "columns in the test set should match the names of the inputs in the variant"
  else
    .httpError (e.status_code.getD 500) e.msg

/-- The boundary of `fetch_list_evaluations`: the `hasattr` pattern with a
prefixed detail message. -/
def listBoundary (e : Exc) : Resp :=
  .httpError (e.status_code.getD 500)
    ("Could not retrieve evaluation results: " ++ e.msg)

/-- Run a handler body on the empty trace and translate an escaping
exception through the handler boundary. -/
def runM (body : M Resp) (onError : Exc → Resp) : Resp × List Event :=
  match body [] with
  | (.ok r, evts) => (r, evts)
  | (.error e, evts) => (onError e, evts)

/-- A `check_action_access` call: records the call (with the object id it
was given, when any) and returns the authorization predicate result. -/
def checkAccess (result : Bool) (objectId : Option String) : M Bool := do
  emit (.checkAccess objectId)
  M.pure result

/-- The permission-check pattern repeated verbatim in each handler:
`if isCloudEE(): has_permission = await check_action_access(...); if not
has_permission: return JSONResponse({"detail": error_msg}, status_code=403)`. -/
def withPermissionGate (cloud : Bool) (perm : Bool) (objectId : Option String)
    (k : M Resp) : M Resp := do
  if cloud then
    let has_permission ← checkAccess perm objectId
    if !has_permission then
      M.pure (.jsonDetail 403 permissionDeniedDetail)
    else k
  else k

/-- Python `str.split(sep)` for a one-character separator, on the character
list: `"".split(",") == [""]`, and a string with `n` separators splits into
`n + 1` parts. -/
def splitChar (sep : Char) : List Char → List (List Char)
  | [] => [[]]
  | c :: rest =>
    if c = sep then [] :: splitChar sep rest
    else
      match splitChar sep rest with
      | [] => [[c]]
      | g :: gs => (c :: g) :: gs

/-- `evaluations_ids.split(",")` of the comparison endpoint. -/
def pySplit (s : String) : List String :=
  (splitChar ',' s.data).map String.mk

/-- `random.choice(xs)`: raises `IndexError` on an empty sequence, otherwise
returns the element at a (randomly drawn) in-range index; the draw is
modelled by the environment-supplied `pick`. -/
def random_choice (pick : Nat) (xs : List String) : Except Exc String :=
  match xs with
  | [] => .error indexError
  | y :: ys => .ok ((y :: ys).getD (pick % (y :: ys).length) y)

/-- Environment of `fetch_evaluation_ids` (`GET /by_resource/`). -/
structure FetchIdsEnv where
  isCloudEE : Bool
  check_action_access : Bool
  fetch_evaluations_by_resource : Except Exc (List EvalRecord)

/-- Body of `fetch_evaluation_ids`: cloud permission gate (no object), then
`db_manager.fetch_evaluations_by_resource`, returning the ids as strings. -/
def fetch_evaluation_ids_body (env : FetchIdsEnv) : M Resp :=
  withPermissionGate env.isCloudEE env.check_action_access none <| do
    let evaluations ← call env.fetch_evaluations_by_resource
    M.pure (.ok (.idList (evaluations.map fun x => x.id)))

/-- `GET /by_resource/`; any escaping exception becomes a 500. -/
def fetch_evaluation_ids (env : FetchIdsEnv) : Resp × List Event :=
  runM (fetch_evaluation_ids_body env) boundary500

/-- The `NewEvaluation` payload of `POST /`. -/
structure NewEvaluation where
  app_id : String
  variant_ids : List String
  evaluators_configs : List String
  testset_id : String
deriving DecidableEq

/-- Environment of `create_evaluation` (`POST /`). -/
structure CreateEnv where
  isCloudEE : Bool
  fetch_app_by_id : Except Exc (Option App)
  check_action_access : Bool
  check_ai_critique_inputs : Except Exc (Bool × String)
  create_new_evaluation : String → Except Exc EvalRecord
  evaluate_delay : String → Except Exc Unit
  update_last_modified_by : Except Exc Unit

/-- The `for variant_id in payload.variant_ids` loop of `create_evaluation`:
for each variant id, `evaluation_service.create_new_evaluation`, then
`evaluate.delay`, appending the created record. -/
def createLoop (env : CreateEnv) : List String → M (List EvalRecord)
  | [] => M.pure []
  | variant_id :: rest => do
    let evaluation ← call (env.create_new_evaluation variant_id)
    emit (.createEval variant_id)
    let _ ← call (env.evaluate_delay variant_id)
    emit (.enqueueJob variant_id evaluation.id)
    let evaluations ← createLoop env rest
    M.pure (evaluation :: evaluations)

/-- Tail of `create_evaluation` after the permission gate:
`check_ai_critique_inputs` (returning its response when unsuccessful), the
per-variant loop, then `app_manager.update_last_modified_by`. -/
def create_evaluation_tail (env : CreateEnv) (payload : NewEvaluation) : M Resp := do
  let x ← call env.check_ai_critique_inputs
  if !x.1 then
    M.pure (.ok (.external x.2))
  else do
    let evaluations ← createLoop env payload.variant_ids
    let _ ← call env.update_last_modified_by
    emit (.updateLastModified payload.app_id)
    M.pure (.ok (.evalList evaluations))

/-- Body of `create_evaluation`: fetch the app, 404 when it is `None`, then
the cloud permission gate, then `create_evaluation_tail`. -/
def create_evaluation_body (env : CreateEnv) (payload : NewEvaluation) : M Resp := do
  let app ← call env.fetch_app_by_id
  match app with
  | none => M.throw (httpExc 404 "App not found")
  | some _ =>
    withPermissionGate env.isCloudEE env.check_action_access none
      (create_evaluation_tail env payload)

/-- `POST /`; `except KeyError` gives the fixed 400, any other escaping
exception uses its own `status_code` when it has one, else 500. -/
def create_evaluation (env : CreateEnv) (payload : NewEvaluation) :
    Resp × List Event :=
  runM (create_evaluation_body env payload) createBoundary

/-- Environment of `fetch_evaluation_status` (`GET /{id}/status/`). -/
structure StatusEnv where
  isCloudEE : Bool
  fetch_evaluation_by_id : Except Exc (Option EvalRecord)
  check_action_access : Bool

/-- `evaluation.status`: attribute access on the fetched record; raises
`AttributeError` when the record is `None`. -/
def attrStatus : Option EvalRecord → Except Exc String
  | none => .error (attributeError "status")
  | some ev => .ok ev.status

/-- `evaluation.aggregated_results`: raises `AttributeError` on `None`. -/
def attrAggregated : Option EvalRecord → Except Exc String
  | none => .error (attributeError "aggregated_results")
  | some ev => .ok ev.aggregated_results

/-- Body of `fetch_evaluation_status`: fetch (no `None` check), cloud gate
with `object=evaluation`, then read `evaluation.status`. -/
def fetch_evaluation_status_body (env : StatusEnv) : M Resp := do
  let evaluation ← call env.fetch_evaluation_by_id
  withPermissionGate env.isCloudEE env.check_action_access
      (evaluation.map fun e => e.id) <| do
    let st ← call (attrStatus evaluation)
    M.pure (.ok (.statusObj st))

/-- `GET /{id}/status/`; any escaping exception becomes a 500. -/
def fetch_evaluation_status (env : StatusEnv) : Resp × List Event :=
  runM (fetch_evaluation_status_body env) boundary500

/-- Environment of `fetch_evaluation_results` (`GET /{id}/results/`). -/
structure ResultsEnv where
  isCloudEE : Bool
  fetch_evaluation_by_id : Except Exc (Option EvalRecord)
  check_action_access : Bool
  aggregated_result_to_pydantic : String → Except Exc String

/-- Body of `fetch_evaluation_results`: fetch (no `None` check), cloud gate
with `object=evaluation`, then convert `evaluation.aggregated_results`. -/
def fetch_evaluation_results_body (env : ResultsEnv) (evaluation_id : String) :
    M Resp := do
  let evaluation ← call env.fetch_evaluation_by_id
  withPermissionGate env.isCloudEE env.check_action_access
      (evaluation.map fun e => e.id) <| do
    let agg ← call (attrAggregated evaluation)
    let results ← call (env.aggregated_result_to_pydantic agg)
    M.pure (.ok (.resultsObj results evaluation_id))

/-- `GET /{id}/results/`; any escaping exception becomes a 500. -/
def fetch_evaluation_results (env : ResultsEnv) (evaluation_id : String) :
    Resp × List Event :=
  runM (fetch_evaluation_results_body env evaluation_id) boundary500

/-- Environment of `fetch_evaluation_scenarios`
(`GET /{id}/evaluation_scenarios/`). -/
structure ScenariosEnv where
  isCloudEE : Bool
  fetch_evaluation_by_id : Except Exc (Option EvalRecord)
  check_action_access : Bool
  fetch_scenarios_service : Except Exc (List String)

/-- Body of `fetch_evaluation_scenarios`: fetch, 404 when `None`, cloud gate
with `object=evaluation`, then the scenario service. -/
def fetch_evaluation_scenarios_body (env : ScenariosEnv) (evaluation_id : String) :
    M Resp := do
  let evaluation ← call env.fetch_evaluation_by_id
  match evaluation with
  | none =>
    M.throw (httpExc 404 ("Evaluation with id " ++ evaluation_id ++ " not found"))
  | some ev =>
    withPermissionGate env.isCloudEE env.check_action_access (some ev.id) <| do
      let eval_scenarios ← call env.fetch_scenarios_service
      M.pure (.ok (.scenarioList eval_scenarios))

/-- `GET /{id}/evaluation_scenarios/`; an escaping exception uses its own
`status_code` when it has one, else 500. -/
def fetch_evaluation_scenarios (env : ScenariosEnv) (evaluation_id : String) :
    Resp × List Event :=
  runM (fetch_evaluation_scenarios_body env evaluation_id) boundaryStatusCode

/-- Environment of `fetch_list_evaluations` (`GET /`). -/
structure ListEnv where
  isCloudEE : Bool
  fetch_app_by_id : Except Exc (Option App)
  check_action_access : Bool
  fetch_list_evaluations_service : Option App → Except Exc (List EvalRecord)

/-- Body of `fetch_list_evaluations`: fetch the app (no `None` check), cloud
gate with `object=app`, then the list service applied to the fetched app. -/
def fetch_list_evaluations_body (env : ListEnv) : M Resp := do
  let app ← call env.fetch_app_by_id
  withPermissionGate env.isCloudEE env.check_action_access
      (app.map fun a => a.id) <| do
    let r ← call (env.fetch_list_evaluations_service app)
    M.pure (.ok (.evalList r))

/-- `GET /`; an escaping exception uses its own `status_code` when it has
one, else 500, with a prefixed detail message. -/
def fetch_list_evaluations (env : ListEnv) : Resp × List Event :=
  runM (fetch_list_evaluations_body env) listBoundary

/-- Environment of `fetch_evaluation` (`GET /{id}/`). -/
structure FetchEnv where
  isCloudEE : Bool
  fetch_evaluation_by_id : Except Exc (Option EvalRecord)
  check_action_access : Bool
  evaluation_db_to_pydantic : EvalRecord → Except Exc EvalRecord

/-- Body of `fetch_evaluation`: fetch, 404 when `None`, cloud gate with
`object_id=evaluation_id`, then the converter. -/
def fetch_evaluation_body (env : FetchEnv) (evaluation_id : String) : M Resp := do
  let evaluation ← call env.fetch_evaluation_by_id
  match evaluation with
  | none =>
    M.throw (httpExc 404 ("Evaluation with id " ++ evaluation_id ++ " not found"))
  | some ev =>
    withPermissionGate env.isCloudEE env.check_action_access (some evaluation_id) <| do
      let r ← call (env.evaluation_db_to_pydantic ev)
      M.pure (.ok (.evaluationObj r))

/-- `GET /{id}/`; an escaping exception uses its own `status_code` when it
has one, else 500. -/
def fetch_evaluation (env : FetchEnv) (evaluation_id : String) :
    Resp × List Event :=
  runM (fetch_evaluation_body env evaluation_id) boundaryStatusCode

/-- The `DeleteEvaluation` payload of `DELETE /`. -/
structure DeleteEvaluation where
  evaluations_ids : List String
deriving DecidableEq

/-- Environment of `delete_evaluations` (`DELETE /`); `pick1` and `pick2`
model the two independent `random.choice` draws. -/
structure DeleteEnv where
  isCloudEE : Bool
  check_action_access : String → Bool
  update_last_modified_by : Except Exc Unit
  delete_evaluations_service : Except Exc Unit
  pick1 : Nat
  pick2 : Nat

/-- Tail of `delete_evaluations` after the permission gate:
`update_last_modified_by` on a second `random.choice` draw, then the delete
service on the full id list, then `Response(status_code=204)`. -/
def delete_evaluations_tail (env : DeleteEnv) (payload : DeleteEvaluation) :
    M Resp := do
  let chosen ← call (random_choice env.pick2 payload.evaluations_ids)
  let _ ← call env.update_last_modified_by
  emit (.updateLastModified chosen)
  let _ ← call env.delete_evaluations_service
  emit (.deleteEvals payload.evaluations_ids)
  M.pure .noContent

/-- Body of `delete_evaluations`: in cloud mode, one `check_action_access`
call on a single `random.choice` draw from the payload ids, then the tail. -/
def delete_evaluations_body (env : DeleteEnv) (payload : DeleteEvaluation) :
    M Resp := do
  if env.isCloudEE then
    let evaluation_id ← call (random_choice env.pick1 payload.evaluations_ids)
    let has_permission ← checkAccess (env.check_action_access evaluation_id)
        (some evaluation_id)
    if !has_permission then
      M.pure (.jsonDetail 403 permissionDeniedDetail)
    else delete_evaluations_tail env payload
  else delete_evaluations_tail env payload

/-- `DELETE /`; any escaping exception becomes a 500. -/
def delete_evaluations (env : DeleteEnv) (payload : DeleteEvaluation) :
    Resp × List Event :=
  runM (delete_evaluations_body env payload) boundary500

/-- Environment of the comparison endpoint
(`GET /evaluation_scenarios/comparison-results/`). -/
structure CompareEnv where
  isCloudEE : Bool
  check_action_access : String → Bool
  compare_evaluations_scenarios : Except Exc String

/-- The `for evaluation_id in evaluations_ids_list` permission loop of the
comparison endpoint: one `check_action_access` per id, stopping at the
first denial. -/
def comparePermLoop (perm : String → Bool) : List String → M Bool
  | [] => M.pure true
  | evaluation_id :: rest => do
    let has_permission ← checkAccess (perm evaluation_id) (some evaluation_id)
    if !has_permission then M.pure false
    else comparePermLoop perm rest

/-- Tail of the comparison endpoint:
`evaluation_service.compare_evaluations_scenarios` on the split id list. -/
def fetch_comparison_results_tail (env : CompareEnv) (ids : List String) :
    M Resp := do
  let eval_scenarios ← call env.compare_evaluations_scenarios
  emit (.compareScenarios ids)
  M.pure (.ok (.comparison eval_scenarios))

/-- Body of the comparison endpoint (the second `fetch_evaluation_scenarios`
of the source): split the comma-separated query string, in cloud mode check
permission per id (403 at the first denial), then compare. -/
def fetch_comparison_results_body (env : CompareEnv) (evaluations_ids : String) :
    M Resp := do
  let evaluations_ids_list := pySplit evaluations_ids
  if env.isCloudEE then
    let allowed ← comparePermLoop env.check_action_access evaluations_ids_list
    if !allowed then
      M.pure (.jsonDetail 403 permissionDeniedDetail)
    else fetch_comparison_results_tail env evaluations_ids_list
  else fetch_comparison_results_tail env evaluations_ids_list

/-- `GET /evaluation_scenarios/comparison-results/`; any escaping exception
becomes a 500. -/
def fetch_comparison_results (env : CompareEnv) (evaluations_ids : String) :
    Resp × List Event :=
  runM (fetch_comparison_results_body env evaluations_ids) boundary500

/-- The side effects that persist after the create loop has processed the
given variant ids successfully, in order: the created record, then the
enqueued job, per variant. -/
def createEvents (f : String → EvalRecord) : List String → List Event
  | [] => []
  | v :: rest => .createEval v :: .enqueueJob v (f v).id :: createEvents f rest

/-! ### Concrete sample environments

Concrete instantiations of the handler environments, used to evaluate the
handlers at specific inputs. -/

/-- A sample persisted evaluation record. -/
def sampleEval : EvalRecord :=
  { id := "ev1", status := "EVALUATION_FINISHED", aggregated_results := "agg" }

/-- A sample app record. -/
def sampleApp : App := { id := "app1" }

/-- The evaluation record created for a given variant id. -/
def mkEval (v : String) : EvalRecord :=
  { id := "eval-" ++ v, status := "EVALUATION_STARTED", aggregated_results := "" }

/-- A delete payload with two ids. -/
def twoIds : DeleteEvaluation := { evaluations_ids := ["ev1", "ev2"] }

/-- A delete payload with no ids. -/
def emptyIds : DeleteEvaluation := { evaluations_ids := [] }

/-- A create payload with two variant ids. -/
def twoVariants : NewEvaluation :=
  { app_id := "app1", variant_ids := ["v1", "v2"],
    evaluators_configs := ["cfg"], testset_id := "ts1" }

/-- Cloud-mode delete environment where everything succeeds. -/
def dEnvAllow : DeleteEnv :=
  { isCloudEE := true
    check_action_access := fun _ => true
    update_last_modified_by := .ok ()
    delete_evaluations_service := .ok ()
    pick1 := 0
    pick2 := 1 }

/-- Non-cloud delete environment where everything succeeds. -/
def dEnvNonCloud : DeleteEnv := { dEnvAllow with isCloudEE := false }

/-- Cloud-mode comparison environment, all permissions granted. -/
def cEnvAllow : CompareEnv :=
  { isCloudEE := true
    check_action_access := fun _ => true
    compare_evaluations_scenarios := .ok "cmp" }

/-- Cloud-mode create environment where everything succeeds. -/
def cEnvCreate : CreateEnv :=
  { isCloudEE := true
    fetch_app_by_id := .ok (some sampleApp)
    check_action_access := true
    check_ai_critique_inputs := .ok (true, "ok")
    create_new_evaluation := fun v => .ok (mkEval v)
    evaluate_delay := fun _ => .ok ()
    update_last_modified_by := .ok () }

/-- A `KeyError` raised when the testset columns do not match the variant
input names. -/
def keyErr : Exc := { isKeyError := true, status_code := none, msg := "input_x" }

/-- A plain internal error with no `status_code` attribute. -/
def dbErr : Exc :=
  { isKeyError := false, status_code := none, msg := "db failure" }

/-- A plain internal error with no `status_code` attribute. -/
def excBoom : Exc := { isKeyError := false, status_code := none, msg := "boom" }

/-- Create environment whose `create_new_evaluation` raises `KeyError`. -/
def cEnvKeyErr : CreateEnv :=
  { cEnvCreate with
    isCloudEE := false
    create_new_evaluation := fun _ => .error keyErr }

/-- Create environment that succeeds on variant `v1` and fails on `v2`. -/
def cEnvPartial : CreateEnv :=
  { cEnvCreate with
    isCloudEE := false
    create_new_evaluation := fun v =>
      if v = "v2" then .error dbErr else .ok (mkEval v) }

/-- Status environment fetching a non-existent evaluation id. -/
def statusEnvMissing : StatusEnv :=
  { isCloudEE := false
    fetch_evaluation_by_id := .ok none
    check_action_access := true }

/-- Results environment fetching a non-existent evaluation id. -/
def resultsEnvMissing : ResultsEnv :=
  { isCloudEE := false
    fetch_evaluation_by_id := .ok none
    check_action_access := true
    aggregated_result_to_pydantic := fun s => .ok s }

/-- Scenarios environment fetching a non-existent evaluation id. -/
def scenariosEnvMissing : ScenariosEnv :=
  { isCloudEE := false
    fetch_evaluation_by_id := .ok none
    check_action_access := true
    fetch_scenarios_service := .ok [] }

/-- Fetch environment fetching a non-existent evaluation id. -/
def fetchEnvMissing : FetchEnv :=
  { isCloudEE := false
    fetch_evaluation_by_id := .ok none
    check_action_access := true
    evaluation_db_to_pydantic := fun ev => .ok ev }

/-- Create environment referencing a non-existent app id. -/
def createEnvNoApp : CreateEnv := { cEnvCreate with fetch_app_by_id := .ok none }

/-- List environment referencing a non-existent app id. -/
def listEnvNoApp : ListEnv :=
  { isCloudEE := false
    fetch_app_by_id := .ok none
    check_action_access := true
    fetch_list_evaluations_service := fun _ => .ok [] }

/-- Fetch environment whose database call raises an exception carrying its
own `status_code` attribute, `418`. -/
def fetchEnv418 : FetchEnv :=
  { isCloudEE := false
    fetch_evaluation_by_id :=
      .error { isKeyError := false, status_code := some 418, msg := "teapot" }
    check_action_access := true
    evaluation_db_to_pydantic := fun ev => .ok ev }

/-- Cloud-mode environments where the authorization predicate denies. -/
def idsEnvDeny : FetchIdsEnv :=
  { isCloudEE := true
    check_action_access := false
    fetch_evaluations_by_resource := .ok [] }

/-- Cloud-mode create environment, permission denied. -/
def createEnvDeny : CreateEnv := { cEnvCreate with check_action_access := false }

/-- Cloud-mode status environment, permission denied. -/
def statusEnvDeny : StatusEnv :=
  { isCloudEE := true
    fetch_evaluation_by_id := .ok (some sampleEval)
    check_action_access := false }

/-- Cloud-mode results environment, permission denied. -/
def resultsEnvDeny : ResultsEnv :=
  { isCloudEE := true
    fetch_evaluation_by_id := .ok (some sampleEval)
    check_action_access := false
    aggregated_result_to_pydantic := fun s => .ok s }

/-- Cloud-mode scenarios environment, permission denied. -/
def scenariosEnvDeny : ScenariosEnv :=
  { isCloudEE := true
    fetch_evaluation_by_id := .ok (some sampleEval)
    check_action_access := false
    fetch_scenarios_service := .ok [] }

/-- Cloud-mode list environment, permission denied. -/
def listEnvDeny : ListEnv :=
  { isCloudEE := true
    fetch_app_by_id := .ok (some sampleApp)
    check_action_access := false
    fetch_list_evaluations_service := fun _ => .ok [] }

/-- Cloud-mode fetch environment, permission denied. -/
def fetchEnvDeny : FetchEnv :=
  { isCloudEE := true
    fetch_evaluation_by_id := .ok (some sampleEval)
    check_action_access := false
    evaluation_db_to_pydantic := fun ev => .ok ev }

/-- Cloud-mode delete environment, permission denied. -/
def deleteEnvDeny : DeleteEnv :=
  { dEnvAllow with check_action_access := fun _ => false }

/-- Cloud-mode comparison environment, permission denied. -/
def compareEnvDeny : CompareEnv :=
  { isCloudEE := true
    check_action_access := fun _ => false
    compare_evaluations_scenarios := .ok "cmp" }

/-- Environments whose first external call raises `excBoom`. -/
def idsEnvErr : FetchIdsEnv :=
  { isCloudEE := false
    check_action_access := true
    fetch_evaluations_by_resource := .error excBoom }

/-- Create environment whose app fetch raises `excBoom`. -/
def createEnvErr : CreateEnv :=
  { cEnvCreate with isCloudEE := false, fetch_app_by_id := .error excBoom }

/-- Status environment whose fetch raises `excBoom`. -/
def statusEnvErr : StatusEnv :=
  { isCloudEE := false
    fetch_evaluation_by_id := .error excBoom
    check_action_access := true }

/-- Results environment whose fetch raises `excBoom`. -/
def resultsEnvErr : ResultsEnv :=
  { isCloudEE := false
    fetch_evaluation_by_id := .error excBoom
    check_action_access := true
    aggregated_result_to_pydantic := fun s => .ok s }

/-- Scenarios environment whose fetch raises `excBoom`. -/
def scenariosEnvErr : ScenariosEnv :=
  { isCloudEE := false
    fetch_evaluation_by_id := .error excBoom
    check_action_access := true
    fetch_scenarios_service := .ok [] }

/-- List environment whose app fetch raises `excBoom`. -/
def listEnvErr : ListEnv :=
  { isCloudEE := false
    fetch_app_by_id := .error excBoom
    check_action_access := true
    fetch_list_evaluations_service := fun _ => .ok [] }

/-- Fetch environment whose fetch raises `excBoom`. -/
def fetchEnvErr : FetchEnv :=
  { isCloudEE := false
    fetch_evaluation_by_id := .error excBoom
    check_action_access := true
    evaluation_db_to_pydantic := fun ev => .ok ev }

/-- Delete environment whose audit call raises `excBoom`. -/
def deleteEnvErr : DeleteEnv :=
  { dEnvAllow with update_last_modified_by := .error excBoom }

/-- Comparison environment whose comparison service raises `excBoom`. -/
def compareEnvErr : CompareEnv :=
  { isCloudEE := false
    check_action_access := fun _ => true
    compare_evaluations_scenarios := .error excBoom }

/-! ### Helper lemmas about the embedded operations -/

theorem bind_eq (x : M α) (f : α → M β) : x >>= f = M.bind x f := rfl

theorem pure_eq (a : α) : (Pure.pure a : M α) = M.pure a := rfl

theorem splitChar_ne_nil (sep : Char) (l : List Char) : splitChar sep l ≠ [] := by
  induction l with
  | nil => simp [splitChar]
  | cons c rest ih =>
    simp only [splitChar]
    split
    · simp
    · cases h : splitChar sep rest with
      | nil => simp
      | cons g gs => simp

theorem pySplit_ne_nil (s : String) : pySplit s ≠ [] := by
  simp only [pySplit, ne_eq, List.map_eq_nil_iff]
  exact splitChar_ne_nil _ _

theorem splitChar_length (sep : Char) (l : List Char) :
    (splitChar sep l).length = l.count sep + 1 := by
  induction l with
  | nil => simp [splitChar]
  | cons c rest ih =>
    simp only [splitChar]
    split
    · rename_i hc
      simp [List.count_cons, hc, ih]
    · rename_i hc
      cases h : splitChar sep rest with
      | nil => exact absurd h (splitChar_ne_nil sep rest)
      | cons g gs =>
        have := ih
        rw [h] at this
        simp only [List.length_cons] at this ⊢
        simp [List.count_cons, hc, ← this]

/-- The number of parts produced by the Python split is the number of
commas plus one. -/
theorem pySplit_length (s : String) :
    (pySplit s).length = s.data.count ',' + 1 := by
  simp [pySplit, splitChar_length]

theorem random_choice_ok (pick : Nat) (y : String) (ys : List String) :
    ∃ id, random_choice pick (y :: ys) = .ok id ∧ id ∈ y :: ys := by
  refine ⟨(y :: ys).getD (pick % (y :: ys).length) y, rfl, ?_⟩
  have hlt : pick % (y :: ys).length < (y :: ys).length :=
    Nat.mod_lt _ (by simp)
  rw [List.getD_eq_getElem _ _ hlt]
  exact List.get_mem _ _ _

theorem comparePermLoop_all_true (perm : String → Bool) (l : List String)
    (h : ∀ id ∈ l, perm id = true) (evts : List Event) :
    comparePermLoop perm l evts
      = (.ok true, evts ++ l.map fun id => Event.checkAccess (some id)) := by
  induction l generalizing evts with
  | nil => simp [comparePermLoop, M.pure]
  | cons x rest ih =>
    have hx : perm x = true := h x (by simp)
    have hrest : ∀ id ∈ rest, perm id = true := fun id hid => h id (by simp [hid])
    simp [comparePermLoop, bind_eq, M.bind, checkAccess, emit, M.pure, hx,
      ih hrest, List.append_assoc]

theorem comparePermLoop_head_false (perm : String → Bool) (x : String)
    (rest : List String) (hx : perm x = false) (evts : List Event) :
    comparePermLoop perm (x :: rest) evts
      = (.ok false, evts ++ [Event.checkAccess (some x)]) := by
  simp [comparePermLoop, bind_eq, M.bind, checkAccess, emit, M.pure, hx]

theorem createLoop_ok (env : CreateEnv) (f : String → EvalRecord)
    (vs : List String)
    (hc : ∀ v ∈ vs, env.create_new_evaluation v = .ok (f v))
    (hd : ∀ v ∈ vs, env.evaluate_delay v = .ok ()) (evts : List Event) :
    createLoop env vs evts = (.ok (vs.map f), evts ++ createEvents f vs) := by
  induction vs generalizing evts with
  | nil => simp [createLoop, M.pure, createEvents]
  | cons v rest ih =>
    have hcv : env.create_new_evaluation v = .ok (f v) := hc v (by simp)
    have hdv : env.evaluate_delay v = .ok () := hd v (by simp)
    have hcr : ∀ w ∈ rest, env.create_new_evaluation w = .ok (f w) :=
      fun w hw => hc w (by simp [hw])
    have hdr : ∀ w ∈ rest, env.evaluate_delay w = .ok () :=
      fun w hw => hd w (by simp [hw])
    simp [createLoop, bind_eq, M.bind, call, emit, M.pure, hcv, hdv,
      ih hcr hdr, createEvents, List.append_assoc]

theorem createLoop_error (env : CreateEnv) (f : String → EvalRecord)
    (vs₁ : List String) (v : String) (rest : List String) (e : Exc)
    (hc : ∀ w ∈ vs₁, env.create_new_evaluation w = .ok (f w))
    (hd : ∀ w ∈ vs₁, env.evaluate_delay w = .ok ())
    (hv : env.create_new_evaluation v = .error e) (evts : List Event) :
    createLoop env (vs₁ ++ v :: rest) evts
      = (.error e, evts ++ createEvents f vs₁) := by
  induction vs₁ generalizing evts with
  | nil => simp [createLoop, bind_eq, M.bind, call, hv, createEvents]
  | cons w ws ih =>
    have hcw : env.create_new_evaluation w = .ok (f w) := hc w (by simp)
    have hdw : env.evaluate_delay w = .ok () := hd w (by simp)
    have hcr : ∀ u ∈ ws, env.create_new_evaluation u = .ok (f u) :=
      fun u hu => hc u (by simp [hu])
    have hdr : ∀ u ∈ ws, env.evaluate_delay u = .ok () :=
      fun u hu => hd u (by simp [hu])
    simp [createLoop, bind_eq, M.bind, call, emit, M.pure, hcw, hdw,
      ih hcr hdr, createEvents, List.append_assoc]

theorem createEvents_filter_create (f : String → EvalRecord) (vs : List String) :
    (createEvents f vs).filter Event.isCreateEval
      = vs.map fun v => Event.createEval v := by
  induction vs with
  | nil => simp [createEvents]
  | cons v rest ih => simp [createEvents, List.filter, Event.isCreateEval, ih]

theorem createEvents_filter_enqueue (f : String → EvalRecord) (vs : List String) :
    (createEvents f vs).filter Event.isEnqueueJob
      = vs.map fun v => Event.enqueueJob v (f v).id := by
  induction vs with
  | nil => simp [createEvents]
  | cons v rest ih => simp [createEvents, List.filter, Event.isEnqueueJob, ih]

/-! ### Claim theorems -/

/-- Claim C1, counterexample: a `fetch_evaluation_status` request referencing
a non-existent evaluation id (the database returns `None`) yields HTTP 500,
not 404 — the handler has no `None` check, so the `evaluation.status`
attribute access raises and the boundary maps it to 500. -/
theorem fetch_status_missing_not_404_cex :
    (fetch_evaluation_status statusEnvMissing).1.statusCode = 500
    ∧ (fetch_evaluation_status statusEnvMissing).1.statusCode ≠ 404 := by decide

/-- Claim C1, amended: a non-existent app id yields 404 in
`create_evaluation`, and a non-existent evaluation id yields 404 in
`fetch_evaluation_scenarios` and `fetch_evaluation`; but
`fetch_evaluation_status` and `fetch_evaluation_results` yield 500 for a
non-existent evaluation id, and `fetch_list_evaluations` performs no app
existence check at all (returning 200 when its service call succeeds). -/
theorem not_found_amended
    (e2 : CreateEnv) (p2 : NewEvaluation) (h2 : e2.fetch_app_by_id = .ok none)
    (e5 : ScenariosEnv) (id5 : String)
    (h5 : e5.fetch_evaluation_by_id = .ok none)
    (e7 : FetchEnv) (id7 : String) (h7 : e7.fetch_evaluation_by_id = .ok none)
    (e3 : StatusEnv) (h3 : e3.fetch_evaluation_by_id = .ok none)
    (h3p : e3.isCloudEE = true → e3.check_action_access = true)
    (e4 : ResultsEnv) (id4 : String) (h4 : e4.fetch_evaluation_by_id = .ok none)
    (h4p : e4.isCloudEE = true → e4.check_action_access = true)
    (e6 : ListEnv) (l6 : List EvalRecord) (h6 : e6.fetch_app_by_id = .ok none)
    (h6p : e6.isCloudEE = true → e6.check_action_access = true)
    (h6s : e6.fetch_list_evaluations_service none = .ok l6) :
    (create_evaluation e2 p2).1.statusCode = 404
    ∧ (fetch_evaluation_scenarios e5 id5).1.statusCode = 404
    ∧ (fetch_evaluation e7 id7).1.statusCode = 404
    ∧ (fetch_evaluation_status e3).1.statusCode = 500
    ∧ (fetch_evaluation_results e4 id4).1.statusCode = 500
    ∧ (fetch_list_evaluations e6).1.statusCode = 200 := by
  refine ⟨?_, ?_, ?_, ?_, ?_, ?_⟩
  · simp [create_evaluation, runM, create_evaluation_body, bind_eq, M.bind,
      call, M.throw, h2, createBoundary, httpExc, Resp.statusCode]
  · simp [fetch_evaluation_scenarios, runM, fetch_evaluation_scenarios_body,
      bind_eq, M.bind, call, M.throw, h5, boundaryStatusCode, httpExc,
      Resp.statusCode]
  · simp [fetch_evaluation, runM, fetch_evaluation_body, bind_eq, M.bind,
      call, M.throw, h7, boundaryStatusCode, httpExc, Resp.statusCode]
  · cases h3c : e3.isCloudEE <;> [skip; replace h3p := h3p h3c] <;>
      simp [fetch_evaluation_status, runM, fetch_evaluation_status_body,
        withPermissionGate, checkAccess, bind_eq, M.bind, call, emit, M.pure,
        h3, h3c, h3p, attrStatus, boundary500, Resp.statusCode]
  · cases h4c : e4.isCloudEE <;> [skip; replace h4p := h4p h4c] <;>
      simp [fetch_evaluation_results, runM, fetch_evaluation_results_body,
        withPermissionGate, checkAccess, bind_eq, M.bind, call, emit, M.pure,
        h4, h4c, h4p, attrAggregated, boundary500, Resp.statusCode]
  · cases h6c : e6.isCloudEE <;> [skip; replace h6p := h6p h6c] <;>
      simp [fetch_list_evaluations, runM, fetch_list_evaluations_body,
        withPermissionGate, checkAccess, bind_eq, M.bind, call, emit, M.pure,
        h6, h6c, h6p, h6s, Resp.statusCode]

/-- Claim C1, witness for the amended theorem at concrete environments. -/
theorem not_found_amended_witness :
    (create_evaluation createEnvNoApp twoVariants).1.statusCode = 404
    ∧ (fetch_evaluation_scenarios scenariosEnvMissing "ev1").1.statusCode = 404
    ∧ (fetch_evaluation fetchEnvMissing "ev1").1.statusCode = 404
    ∧ (fetch_evaluation_status statusEnvMissing).1.statusCode = 500
    ∧ (fetch_evaluation_results resultsEnvMissing "ev1").1.statusCode = 500
    ∧ (fetch_list_evaluations listEnvNoApp).1.statusCode = 200 :=
  not_found_amended createEnvNoApp twoVariants rfl scenariosEnvMissing "ev1" rfl
    fetchEnvMissing "ev1" rfl statusEnvMissing rfl (fun _ => rfl)
    resultsEnvMissing "ev1" rfl (fun _ => rfl) listEnvNoApp [] rfl
    (fun _ => rfl) rfl

/-- Claim C2: in cloud mode `delete_evaluations` issues exactly one
`check_action_access` call, on a single id drawn from
`payload.evaluations_ids`, whatever the permission result and subsequent
call outcomes; by contrast the comparison handler issues one check per id
of its comma-separated list. -/
theorem delete_single_permission_check (denv : DeleteEnv)
    (payload : DeleteEvaluation) (y : String) (ys : List String)
    (hids : payload.evaluations_ids = y :: ys) (hcloudD : denv.isCloudEE = true)
    (cenv : CompareEnv) (s : String) (hcloudC : cenv.isCloudEE = true)
    (hpermC : ∀ id, cenv.check_action_access id = true) :
    (∃ id, id ∈ payload.evaluations_ids
        ∧ (delete_evaluations denv payload).2.filter Event.isCheckAccess
            = [.checkAccess (some id)])
    ∧ ((fetch_comparison_results cenv s).2.filter Event.isCheckAccess).length
        = (pySplit s).length := by
  constructor
  · obtain ⟨id, hid, hmem⟩ := random_choice_ok denv.pick1 y ys
    obtain ⟨id2, hid2, hmem2⟩ := random_choice_ok denv.pick2 y ys
    refine ⟨id, by rw [hids]; exact hmem, ?_⟩
    cases hp : denv.check_action_access id <;>
      cases hu : denv.update_last_modified_by <;>
      cases hd : denv.delete_evaluations_service <;>
        simp [delete_evaluations, runM, delete_evaluations_body,
          delete_evaluations_tail, bind_eq, M.bind, call, emit, M.pure,
          checkAccess, hids, hcloudD, hid, hid2, hp, hu, hd,
          Event.isCheckAccess, List.filter]
  · cases hcmp : cenv.compare_evaluations_scenarios <;>
      simp [fetch_comparison_results, runM, fetch_comparison_results_body,
        fetch_comparison_results_tail, bind_eq, M.bind, call, emit, M.pure,
        hcloudC, hcmp,
        comparePermLoop_all_true cenv.check_action_access (pySplit s)
          (fun id _ => hpermC id),
        List.filter_append, List.filter_map, Event.isCheckAccess, List.filter]

/-- Claim C2, witness at a two-id delete payload and a two-id comparison. -/
theorem delete_single_permission_check_witness :
    (∃ id, id ∈ twoIds.evaluations_ids
        ∧ (delete_evaluations dEnvAllow twoIds).2.filter Event.isCheckAccess
            = [.checkAccess (some id)])
    ∧ ((fetch_comparison_results cEnvAllow "ev1,ev2").2.filter
          Event.isCheckAccess).length
        = (pySplit "ev1,ev2").length :=
  delete_single_permission_check dEnvAllow twoIds "ev1" ["ev2"] rfl rfl
    cEnvAllow "ev1,ev2" rfl (fun _ => rfl)

/-- Claim C3: in cloud mode, whenever the authorization predicate returns
false, every handler responds with exactly
`JSONResponse({"detail": permissionDeniedDetail}, 403)`: all nine handlers
are covered, under the hypotheses that make their permission check
reachable. -/
theorem permission_denied_403
    (e1 : FetchIdsEnv) (h1c : e1.isCloudEE = true)
    (h1p : e1.check_action_access = false)
    (e2 : CreateEnv) (p2 : NewEvaluation) (a2 : App)
    (h2c : e2.isCloudEE = true) (h2p : e2.check_action_access = false)
    (h2a : e2.fetch_app_by_id = .ok (some a2))
    (e3 : StatusEnv) (r3 : Option EvalRecord)
    (h3c : e3.isCloudEE = true) (h3p : e3.check_action_access = false)
    (h3f : e3.fetch_evaluation_by_id = .ok r3)
    (e4 : ResultsEnv) (r4 : Option EvalRecord) (id4 : String)
    (h4c : e4.isCloudEE = true) (h4p : e4.check_action_access = false)
    (h4f : e4.fetch_evaluation_by_id = .ok r4)
    (e5 : ScenariosEnv) (ev5 : EvalRecord) (id5 : String)
    (h5c : e5.isCloudEE = true) (h5p : e5.check_action_access = false)
    (h5f : e5.fetch_evaluation_by_id = .ok (some ev5))
    (e6 : ListEnv) (a6 : Option App)
    (h6c : e6.isCloudEE = true) (h6p : e6.check_action_access = false)
    (h6f : e6.fetch_app_by_id = .ok a6)
    (e7 : FetchEnv) (ev7 : EvalRecord) (id7 : String)
    (h7c : e7.isCloudEE = true) (h7p : e7.check_action_access = false)
    (h7f : e7.fetch_evaluation_by_id = .ok (some ev7))
    (e8 : DeleteEnv) (p8 : DeleteEvaluation) (y8 : String) (ys8 : List String)
    (h8ids : p8.evaluations_ids = y8 :: ys8) (h8c : e8.isCloudEE = true)
    (h8p : ∀ id, e8.check_action_access id = false)
    (e9 : CompareEnv) (s9 : String) (h9c : e9.isCloudEE = true)
    (h9p : ∀ id, e9.check_action_access id = false) :
    (fetch_evaluation_ids e1).1 = .jsonDetail 403 permissionDeniedDetail
    ∧ (create_evaluation e2 p2).1 = .jsonDetail 403 permissionDeniedDetail
    ∧ (fetch_evaluation_status e3).1 = .jsonDetail 403 permissionDeniedDetail
    ∧ (fetch_evaluation_results e4 id4).1
        = .jsonDetail 403 permissionDeniedDetail
    ∧ (fetch_evaluation_scenarios e5 id5).1
        = .jsonDetail 403 permissionDeniedDetail
    ∧ (fetch_list_evaluations e6).1 = .jsonDetail 403 permissionDeniedDetail
    ∧ (fetch_evaluation e7 id7).1 = .jsonDetail 403 permissionDeniedDetail
    ∧ (delete_evaluations e8 p8).1 = .jsonDetail 403 permissionDeniedDetail
    ∧ (fetch_comparison_results e9 s9).1
        = .jsonDetail 403 permissionDeniedDetail := by
  refine ⟨?_, ?_, ?_, ?_, ?_, ?_, ?_, ?_, ?_⟩
  · simp [fetch_evaluation_ids, runM, fetch_evaluation_ids_body,
      withPermissionGate, checkAccess, bind_eq, M.bind, call, emit, M.pure,
      h1c, h1p]
  · simp [create_evaluation, runM, create_evaluation_body,
      withPermissionGate, checkAccess, bind_eq, M.bind, call, emit, M.pure,
      h2c, h2p, h2a]
  · simp [fetch_evaluation_status, runM, fetch_evaluation_status_body,
      withPermissionGate, checkAccess, bind_eq, M.bind, call, emit, M.pure,
      h3c, h3p, h3f]
  · simp [fetch_evaluation_results, runM, fetch_evaluation_results_body,
      withPermissionGate, checkAccess, bind_eq, M.bind, call, emit, M.pure,
      h4c, h4p, h4f]
  · simp [fetch_evaluation_scenarios, runM, fetch_evaluation_scenarios_body,
      withPermissionGate, checkAccess, bind_eq, M.bind, call, emit, M.pure,
      h5c, h5p, h5f]
  · simp [fetch_list_evaluations, runM, fetch_list_evaluations_body,
      withPermissionGate, checkAccess, bind_eq, M.bind, call, emit, M.pure,
      h6c, h6p, h6f]
  · simp [fetch_evaluation, runM, fetch_evaluation_body,
      withPermissionGate, checkAccess, bind_eq, M.bind, call, emit, M.pure,
      h7c, h7p, h7f]
  · obtain ⟨id, hid, hmem⟩ := random_choice_ok e8.pick1 y8 ys8
    simp [delete_evaluations, runM, delete_evaluations_body, checkAccess,
      bind_eq, M.bind, call, emit, M.pure, h8c, h8ids, hid, h8p]
  · cases hsp : pySplit s9 with
    | nil => exact absurd hsp (pySplit_ne_nil s9)
    | cons x xs =>
      simp [fetch_comparison_results, runM, fetch_comparison_results_body,
        bind_eq, M.bind, call, emit, M.pure, h9c, hsp,
        comparePermLoop_head_false e9.check_action_access x xs (h9p x)]

/-- Claim C3, witness: all nine handlers at concrete denying environments. -/
theorem permission_denied_403_witness :
    (fetch_evaluation_ids idsEnvDeny).1 = .jsonDetail 403 permissionDeniedDetail
    ∧ (create_evaluation createEnvDeny twoVariants).1
        = .jsonDetail 403 permissionDeniedDetail
    ∧ (fetch_evaluation_status statusEnvDeny).1
        = .jsonDetail 403 permissionDeniedDetail
    ∧ (fetch_evaluation_results resultsEnvDeny "ev1").1
        = .jsonDetail 403 permissionDeniedDetail
    ∧ (fetch_evaluation_scenarios scenariosEnvDeny "ev1").1
        = .jsonDetail 403 permissionDeniedDetail
    ∧ (fetch_list_evaluations listEnvDeny).1
        = .jsonDetail 403 permissionDeniedDetail
    ∧ (fetch_evaluation fetchEnvDeny "ev1").1
        = .jsonDetail 403 permissionDeniedDetail
    ∧ (delete_evaluations deleteEnvDeny twoIds).1
        = .jsonDetail 403 permissionDeniedDetail
    ∧ (fetch_comparison_results compareEnvDeny "ev1,ev2").1
        = .jsonDetail 403 permissionDeniedDetail :=
  permission_denied_403 idsEnvDeny rfl rfl createEnvDeny twoVariants sampleApp
    rfl rfl rfl statusEnvDeny (some sampleEval) rfl rfl rfl resultsEnvDeny
    (some sampleEval) "ev1" rfl rfl rfl scenariosEnvDeny sampleEval "ev1" rfl
    rfl rfl listEnvDeny (some sampleApp) rfl rfl rfl fetchEnvDeny sampleEval
    "ev1" rfl rfl rfl deleteEnvDeny twoIds "ev1" ["ev2"] rfl rfl
    (fun _ => rfl) compareEnvDeny "ev1,ev2" rfl (fun _ => rfl)

/-- Claim C4: a successful `create_evaluation` with variant ids `vs` calls
`create_new_evaluation` exactly once per variant id, enqueues exactly one
`evaluate` job per variant id (both in payload order), and returns the list
of the created evaluation records. -/
theorem create_per_variant (env : CreateEnv) (payload : NewEvaluation)
    (a : App) (r : String) (f : String → EvalRecord)
    (happ : env.fetch_app_by_id = .ok (some a))
    (hcl : env.isCloudEE = true → env.check_action_access = true)
    (hai : env.check_ai_critique_inputs = .ok (true, r))
    (hc : ∀ v ∈ payload.variant_ids, env.create_new_evaluation v = .ok (f v))
    (hd : ∀ v ∈ payload.variant_ids, env.evaluate_delay v = .ok ())
    (hupd : env.update_last_modified_by = .ok ()) :
    (create_evaluation env payload).1
      = .ok (.evalList (payload.variant_ids.map f))
    ∧ (create_evaluation env payload).2.filter Event.isCreateEval
        = (payload.variant_ids.map fun v => Event.createEval v)
    ∧ (create_evaluation env payload).2.filter Event.isEnqueueJob
        = (payload.variant_ids.map fun v => Event.enqueueJob v (f v).id) := by
  cases hcloud : env.isCloudEE <;>
    [skip; replace hcl := hcl hcloud] <;>
    refine ⟨?_, ?_, ?_⟩ <;>
      simp [create_evaluation, runM, create_evaluation_body,
        create_evaluation_tail, withPermissionGate, checkAccess, bind_eq,
        M.bind, call, emit, M.pure, happ, hcloud, hai, hupd, hcl,
        createLoop_ok env f payload.variant_ids hc hd,
        List.filter_append, createEvents_filter_create,
        createEvents_filter_enqueue, Event.isCreateEval, Event.isEnqueueJob,
        List.filter]

/-- Claim C4, witness at a two-variant payload. -/
theorem create_per_variant_witness :
    (create_evaluation cEnvCreate twoVariants).1
      = .ok (.evalList (twoVariants.variant_ids.map mkEval))
    ∧ (create_evaluation cEnvCreate twoVariants).2.filter Event.isCreateEval
        = (twoVariants.variant_ids.map fun v => Event.createEval v)
    ∧ (create_evaluation cEnvCreate twoVariants).2.filter Event.isEnqueueJob
        = (twoVariants.variant_ids.map fun v =>
            Event.enqueueJob v (mkEval v).id) :=
  create_per_variant cEnvCreate twoVariants sampleApp "ok" mkEval rfl
    (fun _ => rfl) rfl (fun _ _ => rfl) (fun _ _ => rfl) rfl

/-- Claim C5: in cloud mode the comparison endpoint, given a comma-separated
string of ids, issues exactly one `check_action_access` per split id, in
order, before calling `compare_evaluations_scenarios` on the split list;
the number of ids `K` is always at least 1. -/
theorem comparison_k_checks (env : CompareEnv) (s : String) (c : String)
    (hcloud : env.isCloudEE = true)
    (hperm : ∀ id, env.check_action_access id = true)
    (hcmp : env.compare_evaluations_scenarios = .ok c) :
    (fetch_comparison_results env s).2
      = ((pySplit s).map fun id => Event.checkAccess (some id))
          ++ [Event.compareScenarios (pySplit s)]
    ∧ 1 ≤ (pySplit s).length
    ∧ (fetch_comparison_results env s).1 = .ok (.comparison c) := by
  refine ⟨?_, List.length_pos.mpr (pySplit_ne_nil s), ?_⟩ <;>
    simp [fetch_comparison_results, runM, fetch_comparison_results_body,
      fetch_comparison_results_tail, bind_eq, M.bind, call, emit, M.pure,
      hcloud, hcmp,
      comparePermLoop_all_true env.check_action_access (pySplit s)
        (fun id _ => hperm id)]

/-- Claim C5, witness at a three-id comma-separated list. -/
theorem comparison_k_checks_witness :
    (fetch_comparison_results cEnvAllow "a,b,c").2
      = ((pySplit "a,b,c").map fun id => Event.checkAccess (some id))
          ++ [Event.compareScenarios (pySplit "a,b,c")]
    ∧ 1 ≤ (pySplit "a,b,c").length
    ∧ (fetch_comparison_results cEnvAllow "a,b,c").1 = .ok (.comparison "cmp") :=
  comparison_k_checks cEnvAllow "a,b,c" "cmp" rfl (fun _ => rfl) rfl

/-- Claim C6: a successful `delete_evaluations` passes exactly
`payload.evaluations_ids` to the delete service (one delete call, with
exactly those ids) and responds `Response(status_code=204)` with no body. -/
theorem delete_success_204 (env : DeleteEnv) (payload : DeleteEvaluation)
    (y : String) (ys : List String) (hids : payload.evaluations_ids = y :: ys)
    (hperm : ∀ id, env.check_action_access id = true)
    (hupd : env.update_last_modified_by = .ok ())
    (hdel : env.delete_evaluations_service = .ok ()) :
    (delete_evaluations env payload).1 = .noContent
    ∧ (delete_evaluations env payload).2.filter Event.isDeleteEvals
        = [.deleteEvals payload.evaluations_ids] := by
  cases hc : env.isCloudEE <;>
    simp [delete_evaluations, runM, delete_evaluations_body,
      delete_evaluations_tail, bind_eq, M.bind, call, emit, M.pure,
      checkAccess, random_choice, hids, hc, hperm, hupd, hdel,
      Event.isDeleteEvals, List.filter]

/-- Claim C6, witness at a two-id payload. -/
theorem delete_success_204_witness :
    (delete_evaluations dEnvAllow twoIds).1 = .noContent
    ∧ (delete_evaluations dEnvAllow twoIds).2.filter Event.isDeleteEvals
        = [.deleteEvals twoIds.evaluations_ids] :=
  delete_success_204 dEnvAllow twoIds "ev1" ["ev2"] rfl (fun _ => rfl) rfl rfl

/-- Claim C7: when a `KeyError` is raised while processing a variant (after
any prefix of successful variants), `create_evaluation` responds 400 with
the fixed column-mismatch detail message. -/
theorem create_keyerror_400 (env : CreateEnv) (payload : NewEvaluation)
    (a : App) (r : String) (f : String → EvalRecord)
    (vs₁ : List String) (v : String) (rest : List String) (e : Exc)
    (happ : env.fetch_app_by_id = .ok (some a))
    (hcl : env.isCloudEE = true → env.check_action_access = true)
    (hai : env.check_ai_critique_inputs = .ok (true, r))
    (hvars : payload.variant_ids = vs₁ ++ v :: rest)
    (hc : ∀ w ∈ vs₁, env.create_new_evaluation w = .ok (f w))
    (hd : ∀ w ∈ vs₁, env.evaluate_delay w = .ok ())
    (hv : env.create_new_evaluation v = .error e)
    (hk : e.isKeyError = true) :
    (create_evaluation env payload).1
      = .httpError 400
          "columns in the test set should match the names of the inputs in the variant" := by
  cases hcloud : env.isCloudEE <;>
    [skip; replace hcl := hcl hcloud] <;>
    simp [create_evaluation, runM, create_evaluation_body,
      create_evaluation_tail, withPermissionGate, checkAccess, bind_eq,
      M.bind, call, emit, M.pure, happ, hcloud, hai, hcl, hvars,
      createLoop_error env f vs₁ v rest e hc hd hv, createBoundary, hk]

/-- Claim C7, witness: `create_new_evaluation` raises `KeyError` on the
first variant. -/
theorem create_keyerror_400_witness :
    (create_evaluation cEnvKeyErr twoVariants).1
      = .httpError 400
          "columns in the test set should match the names of the inputs in the variant" :=
  create_keyerror_400 cEnvKeyErr twoVariants sampleApp "ok" mkEval [] "v1"
    ["v2"] keyErr rfl (fun _ => rfl) rfl rfl (by simp) (by simp) rfl rfl

/-- Claim C8, counterexample: an exception that carries its own
`status_code` attribute (here 418) escaping `fetch_evaluation` is re-raised
with that status code, not with a generic 500 as the claim states. -/
theorem exception_own_status_code_cex :
    (fetch_evaluation fetchEnv418 "ev1").1 = .httpError 418 "teapot"
    ∧ (fetch_evaluation fetchEnv418 "ev1").1.statusCode ≠ 500 := by decide

/-- Claim C8, amended: an unhandled exception escaping a handler body is
converted to an HTTP error whose detail is the exception message (prefixed
in `fetch_list_evaluations`); the status is 500 when the exception carries
no `status_code`, while an exception carrying its own `status_code` keeps
that code in `create_evaluation`, `fetch_evaluation_scenarios`,
`fetch_list_evaluations` and `fetch_evaluation`, and is flattened to 500 in
the remaining five handlers. -/
theorem exception_boundary_amended (e : Exc) (hk : e.isKeyError = false)
    (e1 : FetchIdsEnv) (h1p : e1.isCloudEE = true → e1.check_action_access = true)
    (h1f : e1.fetch_evaluations_by_resource = .error e)
    (e2 : CreateEnv) (p2 : NewEvaluation) (h2f : e2.fetch_app_by_id = .error e)
    (e3 : StatusEnv) (h3f : e3.fetch_evaluation_by_id = .error e)
    (e4 : ResultsEnv) (id4 : String) (h4f : e4.fetch_evaluation_by_id = .error e)
    (e5 : ScenariosEnv) (id5 : String) (h5f : e5.fetch_evaluation_by_id = .error e)
    (e6 : ListEnv) (h6f : e6.fetch_app_by_id = .error e)
    (e7 : FetchEnv) (id7 : String) (h7f : e7.fetch_evaluation_by_id = .error e)
    (e8 : DeleteEnv) (p8 : DeleteEvaluation) (y8 : String) (ys8 : List String)
    (h8ids : p8.evaluations_ids = y8 :: ys8)
    (h8p : e8.isCloudEE = true → ∀ id, e8.check_action_access id = true)
    (h8u : e8.update_last_modified_by = .error e)
    (e9 : CompareEnv) (s9 : String)
    (h9p : e9.isCloudEE = true → ∀ id, e9.check_action_access id = true)
    (h9c : e9.compare_evaluations_scenarios = .error e) :
    (fetch_evaluation_ids e1).1 = .httpError 500 e.msg
    ∧ (create_evaluation e2 p2).1
        = .httpError (e.status_code.getD 500) e.msg
    ∧ (fetch_evaluation_status e3).1 = .httpError 500 e.msg
    ∧ (fetch_evaluation_results e4 id4).1 = .httpError 500 e.msg
    ∧ (fetch_evaluation_scenarios e5 id5).1
        = .httpError (e.status_code.getD 500) e.msg
    ∧ (fetch_list_evaluations e6).1
        = .httpError (e.status_code.getD 500)
            ("Could not retrieve evaluation results: " ++ e.msg)
    ∧ (fetch_evaluation e7 id7).1 = .httpError (e.status_code.getD 500) e.msg
    ∧ (delete_evaluations e8 p8).1 = .httpError 500 e.msg
    ∧ (fetch_comparison_results e9 s9).1 = .httpError 500 e.msg := by
  refine ⟨?_, ?_, ?_, ?_, ?_, ?_, ?_, ?_, ?_⟩
  · cases h1c : e1.isCloudEE <;> [skip; replace h1p := h1p h1c] <;>
      simp [fetch_evaluation_ids, runM, fetch_evaluation_ids_body,
        withPermissionGate, checkAccess, bind_eq, M.bind, call, emit, M.pure,
        h1c, h1p, h1f, boundary500]
  · simp [create_evaluation, runM, create_evaluation_body, bind_eq, M.bind,
      call, h2f, createBoundary, hk]
  · simp [fetch_evaluation_status, runM, fetch_evaluation_status_body,
      bind_eq, M.bind, call, h3f, boundary500]
  · simp [fetch_evaluation_results, runM, fetch_evaluation_results_body,
      bind_eq, M.bind, call, h4f, boundary500]
  · simp [fetch_evaluation_scenarios, runM, fetch_evaluation_scenarios_body,
      bind_eq, M.bind, call, h5f, boundaryStatusCode]
  · simp [fetch_list_evaluations, runM, fetch_list_evaluations_body,
      bind_eq, M.bind, call, h6f, listBoundary]
  · simp [fetch_evaluation, runM, fetch_evaluation_body, bind_eq, M.bind,
      call, h7f, boundaryStatusCode]
  · obtain ⟨id1, hid1, _⟩ := random_choice_ok e8.pick1 y8 ys8
    obtain ⟨id2, hid2, _⟩ := random_choice_ok e8.pick2 y8 ys8
    cases h8c : e8.isCloudEE <;> [skip; replace h8p := h8p h8c] <;>
      simp [delete_evaluations, runM, delete_evaluations_body,
        delete_evaluations_tail, checkAccess, bind_eq, M.bind, call, emit,
        M.pure, h8c, h8ids, hid1, hid2, h8p, h8u, boundary500]
  · cases h9cl : e9.isCloudEE
    · simp [fetch_comparison_results, runM, fetch_comparison_results_body,
        fetch_comparison_results_tail, bind_eq, M.bind, call, emit, M.pure,
        h9cl, h9c, boundary500]
    · replace h9p := h9p h9cl
      simp [fetch_comparison_results, runM, fetch_comparison_results_body,
        fetch_comparison_results_tail, bind_eq, M.bind, call, emit, M.pure,
        h9cl, h9c, boundary500,
        comparePermLoop_all_true e9.check_action_access (pySplit s9)
          (fun id _ => h9p id)]

/-- Claim C8, witness for the amended theorem: the same status-code-free
exception escaping every handler. -/
theorem exception_boundary_amended_witness :
    (fetch_evaluation_ids idsEnvErr).1 = .httpError 500 excBoom.msg
    ∧ (create_evaluation createEnvErr twoVariants).1
        = .httpError (excBoom.status_code.getD 500) excBoom.msg
    ∧ (fetch_evaluation_status statusEnvErr).1 = .httpError 500 excBoom.msg
    ∧ (fetch_evaluation_results resultsEnvErr "ev1").1
        = .httpError 500 excBoom.msg
    ∧ (fetch_evaluation_scenarios scenariosEnvErr "ev1").1
        = .httpError (excBoom.status_code.getD 500) excBoom.msg
    ∧ (fetch_list_evaluations listEnvErr).1
        = .httpError (excBoom.status_code.getD 500)
            ("Could not retrieve evaluation results: " ++ excBoom.msg)
    ∧ (fetch_evaluation fetchEnvErr "ev1").1
        = .httpError (excBoom.status_code.getD 500) excBoom.msg
    ∧ (delete_evaluations deleteEnvErr twoIds).1 = .httpError 500 excBoom.msg
    ∧ (fetch_comparison_results compareEnvErr "ev1,ev2").1
        = .httpError 500 excBoom.msg :=
  exception_boundary_amended excBoom rfl idsEnvErr (fun _ => rfl) rfl
    createEnvErr twoVariants rfl statusEnvErr rfl resultsEnvErr "ev1" rfl
    scenariosEnvErr "ev1" rfl listEnvErr rfl fetchEnvErr "ev1" rfl
    deleteEnvErr twoIds "ev1" ["ev2"] rfl (fun _ _ => rfl) rfl compareEnvErr
    "ev1,ev2" (fun _ _ => rfl) rfl

/-- Claim C9: a `delete_evaluations` request with an empty id list fails
with HTTP 500 in cloud and non-cloud mode alike (`random.choice` raises
`IndexError` before any external call), the trace is empty — in particular
no deletion happens — and the 204 path is unreachable. -/
theorem delete_empty_ids_500 (env : DeleteEnv) (payload : DeleteEvaluation)
    (h : payload.evaluations_ids = []) :
    (delete_evaluations env payload).1 = .httpError 500 indexError.msg
    ∧ (delete_evaluations env payload).2 = [] := by
  cases hc : env.isCloudEE <;>
    simp [delete_evaluations, runM, delete_evaluations_body,
      delete_evaluations_tail, bind_eq, M.bind, call, random_choice, h, hc,
      boundary500]

/-- Claim C9, witness in both cloud and non-cloud mode. -/
theorem delete_empty_ids_500_witness :
    ((delete_evaluations dEnvAllow emptyIds).1 = .httpError 500 indexError.msg
      ∧ (delete_evaluations dEnvAllow emptyIds).2 = [])
    ∧ ((delete_evaluations dEnvNonCloud emptyIds).1
          = .httpError 500 indexError.msg
      ∧ (delete_evaluations dEnvNonCloud emptyIds).2 = []) :=
  ⟨delete_empty_ids_500 dEnvAllow emptyIds rfl,
    delete_empty_ids_500 dEnvNonCloud emptyIds rfl⟩

/-- Claim C10: `create_evaluation` is not atomic on error: when the loop
fails at the variant after a non-empty successful prefix `vs₁`, the
evaluations created and the jobs enqueued for `vs₁` remain in the trace
(no rollback event exists at all), the persisted-create list is non-empty,
and the handler returns an HTTP error. -/
theorem create_not_atomic (env : CreateEnv) (payload : NewEvaluation)
    (a : App) (r : String) (f : String → EvalRecord)
    (vs₁ : List String) (v : String) (rest : List String) (e : Exc)
    (happ : env.fetch_app_by_id = .ok (some a))
    (hcl : env.isCloudEE = true → env.check_action_access = true)
    (hai : env.check_ai_critique_inputs = .ok (true, r))
    (hvars : payload.variant_ids = vs₁ ++ v :: rest)
    (hc : ∀ w ∈ vs₁, env.create_new_evaluation w = .ok (f w))
    (hd : ∀ w ∈ vs₁, env.evaluate_delay w = .ok ())
    (hv : env.create_new_evaluation v = .error e)
    (hne : vs₁ ≠ [])
    (hcode : ∀ c ∈ e.status_code, 400 ≤ c) :
    (create_evaluation env payload).2.filter Event.isCreateEval
      = (vs₁.map fun w => Event.createEval w)
    ∧ (create_evaluation env payload).2.filter Event.isEnqueueJob
        = (vs₁.map fun w => Event.enqueueJob w (f w).id)
    ∧ (create_evaluation env payload).2.filter Event.isCreateEval ≠ []
    ∧ (∃ code detail, (create_evaluation env payload).1
          = .httpError code detail ∧ 400 ≤ code) := by
  have htrace : (create_evaluation env payload).2.filter Event.isCreateEval
      = (vs₁.map fun w => Event.createEval w)
    ∧ (create_evaluation env payload).2.filter Event.isEnqueueJob
        = (vs₁.map fun w => Event.enqueueJob w (f w).id) := by
    cases hcloud : env.isCloudEE <;>
      [skip; replace hcl := hcl hcloud] <;>
      refine ⟨?_, ?_⟩ <;>
        simp [create_evaluation, runM, create_evaluation_body,
          create_evaluation_tail, withPermissionGate, checkAccess, bind_eq,
          M.bind, call, emit, M.pure, happ, hcloud, hai, hcl, hvars,
          createLoop_error env f vs₁ v rest e hc hd hv,
          List.filter_append, createEvents_filter_create,
          createEvents_filter_enqueue, Event.isCreateEval, Event.isEnqueueJob,
          List.filter]
  refine ⟨htrace.1, htrace.2, ?_, ?_⟩
  · rw [htrace.1]
    simpa using hne
  · have hresp : (create_evaluation env payload).1 = createBoundary e := by
      cases hcloud : env.isCloudEE <;>
        [skip; replace hcl := hcl hcloud] <;>
        simp [create_evaluation, runM, create_evaluation_body,
          create_evaluation_tail, withPermissionGate, checkAccess, bind_eq,
          M.bind, call, emit, M.pure, happ, hcloud, hai, hcl, hvars,
          createLoop_error env f vs₁ v rest e hc hd hv]
    rw [hresp]
    cases hk : e.isKeyError
    · refine ⟨e.status_code.getD 500, e.msg, by simp [createBoundary, hk], ?_⟩
      cases hsc : e.status_code with
      | none => simp
      | some c => simpa using hcode c (by simp [hsc])
    · exact ⟨400,
        "columns in the test set should match the names of the inputs in the variant",
        by simp [createBoundary, hk], le_refl 400⟩

/-- Claim C10, witness: variant `v1` succeeds, variant `v2` fails; the
create and enqueue for `v1` persist while the response is a 500. -/
theorem create_not_atomic_witness :
    (create_evaluation cEnvPartial twoVariants).2.filter Event.isCreateEval
      = (["v1"].map fun w => Event.createEval w)
    ∧ (create_evaluation cEnvPartial twoVariants).2.filter Event.isEnqueueJob
        = (["v1"].map fun w => Event.enqueueJob w (mkEval w).id)
    ∧ (create_evaluation cEnvPartial twoVariants).2.filter Event.isCreateEval
        ≠ []
    ∧ (∃ code detail, (create_evaluation cEnvPartial twoVariants).1
          = .httpError code detail ∧ 400 ≤ code) :=
  create_not_atomic cEnvPartial twoVariants sampleApp "ok" mkEval ["v1"] "v2"
    [] dbErr rfl (fun _ => rfl) rfl rfl
    (by intro w hw; rw [List.mem_singleton] at hw; subst hw; rfl)
    (fun _ _ => rfl) rfl (by decide)
    (by intro c hc; simp [dbErr] at hc)

end EvaluationRouter
